import Mathlib

/-!
Shallow embedding of the session-aware API client in `src/services/api.ts`
of the aboi-admin-panel repository.

The client holds a bearer token (in memory and mirrored in durable storage
under a fixed key), builds HTTP requests, interprets responses and
normalises failures into a single `ApiError` type.  The network is modelled
as an oracle `FetchRequest → FetchResponse` passed to each operation; each
operation returns the new client state, an `Except` outcome and the fetch
call it performed (if any), so that "no network call is made" is a provable
statement.

JavaScript truthiness of strings is modelled faithfully: an empty string
token counts as "no token" in every `if (accessToken)`-style check, and
`persistToken('')` removes the stored value.
-/

namespace Api

/-- JSON values, the result of `response.json()` / argument of
`JSON.stringify`.  JavaScript arrays are `typeof 'object'`, hence both
`obj` and `arr` count as records for `isRecord`. -/
inductive Json where
  | null : Json
  | bool : Bool → Json
  | num : Int → Json
  | str : String → Json
  | arr : List Json → Json
  | obj : List (String × Json) → Json

/-- The `isRecord` test of the source: `typeof value === 'object' && value !== null`.
JavaScript arrays satisfy it. -/
def Json.isRecord : Json → Bool
  | .obj _ => true
  | .arr _ => true
  | _ => false

/-- Property read `value.k` on a parsed JSON value: `some` iff the key is
present on an object (first occurrence); property reads on arrays and
primitives yield `undefined`, i.e. `none`. -/
def Json.getField : Json → String → Option Json
  | .obj fields, k => (fields.find? (fun p => p.1 == k)).map (fun p => p.2)
  | _, _ => none

/-- The `'k' in value` test of the source (line 121): key presence on an
object; `false` on arrays and primitives. -/
def Json.hasField (j : Json) (k : String) : Bool :=
  match j with
  | .obj fields => fields.any (fun p => p.1 == k)
  | _ => false

mutual

/-- Serialisation `JSON.stringify` on the modelled values (string escaping not modelled;
the claims only depend on serialisation happening, not on its exact text). -/
def Json.stringify : Json → String
  | .null => "null"
  | .bool true => "true"
  | .bool false => "false"
  | .num n => toString n
  | .str s => "\"" ++ s ++ "\""
  | .arr xs => "[" ++ stringifyList xs ++ "]"
  | .obj fs => "\x7b" ++ stringifyFields fs ++ "\x7d"

def stringifyList : List Json → String
  | [] => ""
  | [x] => Json.stringify x
  | x :: xs => Json.stringify x ++ "," ++ stringifyList xs

def stringifyFields : List (String × Json) → String
  | [] => ""
  | [(k, v)] => "\"" ++ k ++ "\":" ++ Json.stringify v
  | (k, v) :: fs => "\"" ++ k ++ "\":" ++ Json.stringify v ++ "," ++ stringifyFields fs

end

/-- Leading-match test on character lists (structural, so that
concrete instances evaluate). -/
def charsStartWith : List Char → List Char → Bool
  | _, [] => true
  | [], _ :: _ => false
  | c :: cs, d :: ds => c == d && charsStartWith cs ds

/-- Substring occurrence on character lists. -/
def charsContain : List Char → List Char → Bool
  | [], pat => pat.isEmpty
  | c :: cs, pat => charsStartWith (c :: cs) pat || charsContain cs pat

/-- The test `s.startsWith(pat)`. -/
def strStartsWith (s pat : String) : Bool := charsStartWith s.data pat.data

/-- The test `s.endsWith(pat)`. -/
def strEndsWith (s pat : String) : Bool :=
  charsStartWith s.data.reverse pat.data.reverse

/-- The normalisation `url.replace(/\/$/, '')`: strip one trailing slash. -/
def normaliseBaseUrl (url : String) : String :=
  if strEndsWith url "/" then String.mk url.data.dropLast else url

/-- The base URL `API_BASE_URL`, resolved once at startup (default local endpoint). -/
def API_BASE_URL : String := normaliseBaseUrl "http://localhost:3001"

/-- The fixed durable-storage key `TOKEN_STORAGE_KEY`. -/
def TOKEN_STORAGE_KEY : String := "aboi_admin_token"

/-- The helper `resolveUrl`: join the path to the base URL, adding a leading slash if
absent. -/
def resolveUrl (path : String) : String :=
  API_BASE_URL ++ (if strStartsWith path "/" then path else "/" ++ path)

/-- The test `contentType.includes('application/json')`: substring occurrence. -/
def strContains (s pat : String) : Bool := charsContain s.data pat.data

/-- Client-side mutable state: the module-level `accessToken` and the value
held in `window.localStorage` under `TOKEN_STORAGE_KEY`. -/
structure ClientState where
  accessToken : Option String
  storedToken : Option String
deriving DecidableEq

/-- JavaScript truthiness of `accessToken` (`null`/`undefined` and the empty
string are falsy). -/
def tokenTruthy : Option String → Bool
  | none => false
  | some t => !(t == "")

/-- The setter `persistToken`: set the in-memory token, and mirror it into storage —
`setItem` for a truthy token, `removeItem` otherwise. -/
def persistToken (_st : ClientState) (token : Option String) : ClientState :=
  { accessToken := token
    storedToken :=
      match token with
      | some t => if t == "" then none else some t
      | none => none }

/-- The `ApiError` class: message, optional HTTP status, optional raw
payload. -/
structure ApiError where
  message : String
  status : Option Nat
  details : Option Json

/-- A request body value as passed by callers: a binary form payload
(`FormData`, modelled as its parts) or any other JavaScript value modelled
as `Json` (strings being `Json.str`). -/
inductive BodyValue where
  | formData : List (String × String) → BodyValue
  | value : Json → BodyValue

/-- A body as handed to `fetch`: the unmodified form payload, or a raw
string. -/
inductive FetchBody where
  | form : List (String × String) → FetchBody
  | raw : String → FetchBody

/-- The options record `RequestOptions` with the source's defaults. -/
structure RequestOptions where
  method : String := "GET"
  body : Option BodyValue := none
  authenticated : Bool := true

/-- The request handed to `fetch`. -/
structure FetchRequest where
  url : String
  method : String
  headers : List (String × String)
  body : Option FetchBody

/-- The transport's answer: HTTP status, the `content-type` response header
(`none` when absent), and the values `response.json()` / `response.text()`
would produce. -/
structure FetchResponse where
  status : Nat
  contentType : Option String
  json : Json
  text : String

/-- The update `Headers.set`: replace an existing entry, else append. -/
def headersSet (hs : List (String × String)) (k v : String) : List (String × String) :=
  if hs.any (fun p => p.1 == k) then hs.map (fun p => if p.1 == k then (k, v) else p)
  else hs ++ [(k, v)]

/-- Result of one `request` call: the client state afterwards, the outcome,
and the fetch call performed (`none` when the network was never touched). -/
structure RequestResult where
  state : ClientState
  outcome : Except ApiError Json
  networkCall : Option FetchRequest

/-- The error-message selection of `request` (source lines 102–112):
prefer a string `payload.error.message`, fall back to a string
`payload.message`, fall back to the generic text. -/
def failureMessage (status : Nat) (payload : Json) : String :=
  let dflt := "Request failed with status " ++ toString status
  if payload.isRecord then
    let fromError : Option String :=
      match payload.getField "error" with
      | some e =>
        if e.isRecord then
          match e.getField "message" with
          | some (.str m) => some m
          | _ => none
        else none
      | none => none
    match fromError with
    | some m => m
    | none =>
      match payload.getField "message" with
      | some (.str m) => m
      | _ => dflt
  else dflt

/-- Reading the payload (source lines 91–100): a 204 status reads nothing
(`null`); otherwise parse JSON when the content-type header is present,
truthy and contains `application/json`, else read the body as text. -/
def readPayload (resp : FetchResponse) : Json :=
  if resp.status = 204 then .null
  else
    match resp.contentType with
    | some ct => if ct ≠ "" ∧ strContains ct "application/json" then resp.json else .str resp.text
    | none => .str resp.text

/-- Header and body construction of `request` (source lines 66–83): start
from `Accept: application/json`; skip an absent (`undefined`/`null`) body;
pass a binary form payload through untouched; send a string body as-is and
serialise any other value, setting `Content-Type: application/json` in both
of the latter cases; finally attach `Authorization: Bearer <token>` when
the call is authenticated and a (truthy) token is held. -/
def bodyStep : Option BodyValue → List (String × String) × Option FetchBody
  | none => ([("Accept", "application/json")], none)
  | some (.value .null) => ([("Accept", "application/json")], none)
  | some (.formData fd) => ([("Accept", "application/json")], some (.form fd))
  | some (.value (.str s)) =>
    (headersSet [("Accept", "application/json")] "Content-Type" "application/json",
      some (.raw s))
  | some (.value j) =>
    (headersSet [("Accept", "application/json")] "Content-Type" "application/json",
      some (.raw j.stringify))

def buildHeaders (opts : RequestOptions) (st : ClientState) :
    List (String × String) × Option FetchBody :=
  if opts.authenticated ∧ tokenTruthy st.accessToken then
    match st.accessToken with
    | some t =>
      (headersSet (bodyStep opts.body).1 "Authorization" ("Bearer " ++ t),
        (bodyStep opts.body).2)
    | none => bodyStep opts.body
  else bodyStep opts.body

/-- The request handed to `fetch` (source lines 85–89). -/
def buildRequest (st : ClientState) (path : String) (opts : RequestOptions) : FetchRequest :=
  ⟨resolveUrl path, opts.method, (buildHeaders opts st).1, (buildHeaders opts st).2⟩

/-- Response interpretation of `request` (source lines 91–126): read the
payload, unwrap a `data` field on success, and on failure clear the token
for 401/403 and raise an `ApiError` with the selected message, the status
and the raw payload. -/
def handleResponse (st : ClientState) (resp : FetchResponse) :
    ClientState × Except ApiError Json :=
  let payload := readPayload resp
  if 200 ≤ resp.status ∧ resp.status ≤ 299 then
    (st, .ok (if payload.isRecord ∧ payload.hasField "data" then
      (payload.getField "data").getD .null else payload))
  else
    (if resp.status = 401 ∨ resp.status = 403 then persistToken st none else st,
      .error ⟨failureMessage resp.status payload, some resp.status, some payload⟩)

/-- The core `request` function (source lines 59–126), with the network as
an oracle. -/
def request (st : ClientState) (path : String) (opts : RequestOptions)
    (doFetch : FetchRequest → FetchResponse) : RequestResult :=
  if opts.authenticated ∧ ¬ tokenTruthy st.accessToken then
    ⟨st, .error ⟨"Not authenticated", some 401, none⟩, none⟩
  else
    let req := buildRequest st path opts
    let h := handleResponse st (doFetch req)
    ⟨h.1, h.2, some req⟩

/-- Thrown values of the derived operations: either the `ApiError` raised
by `request`, or the `TypeError` JavaScript raises when a property of a
`null` value is read. -/
inductive ThrownError where
  | api : ApiError → ThrownError
  | typeError : ThrownError

/-- The test for the one payload value whose property reads throw a
`TypeError` (`null`; an `undefined` payload cannot arise here, and property
reads on primitives auto-box and yield `undefined`). -/
def Json.isNull : Json → Bool
  | .null => true
  | _ => false

/-- Result of a derived operation that can throw a `TypeError` on top of
the `ApiError`s of `request`. -/
structure CallResult where
  state : ClientState
  outcome : Except ThrownError Json
  networkCall : Option FetchRequest

/-- The operation `authApi.login`: unauthenticated POST to `/auth/login`; on success the
returned token is persisted.  Reading `result.token` off a `null` success
payload throws a `TypeError` before anything is persisted; a missing or
non-string `token` field is modelled as persisting no token (the source
passes the untyped field to `persistToken`, where a non-string value is
outside the declared `string | null` contract). -/
def authApi.login (st : ClientState) (email password : String)
    (doFetch : FetchRequest → FetchResponse) : CallResult :=
  let r := request st "/auth/login"
    { method := "POST"
      body := some (.value (.obj [("username", .str email), ("password", .str password)]))
      authenticated := false } doFetch
  match r.outcome with
  | .ok j =>
    if j.isNull then ⟨r.state, .error .typeError, r.networkCall⟩
    else
      let tok : Option String :=
        match j.getField "token" with
        | some (.str t) => some t
        | _ => none
      ⟨persistToken r.state tok, .ok j, r.networkCall⟩
  | .error e => ⟨r.state, .error (.api e), r.networkCall⟩

/-- Result of `authApi.me`: `ok none` models returning `null` (or an absent
`user` field). -/
structure MeResult where
  state : ClientState
  outcome : Except ThrownError (Option Json)
  networkCall : Option FetchRequest

/-- The operation `authApi.me`: `null` without a network call when no token is held; on
success the `user` field of the (unwrapped) response — where reading
`result.user` off a `null` payload throws a `TypeError`, which the catch
rethrows since it is no `ApiError`; a 401 from the server yields `null`;
any other `ApiError` is rethrown. -/
def authApi.me (st : ClientState) (doFetch : FetchRequest → FetchResponse) : MeResult :=
  if tokenTruthy st.accessToken then
    let r := request st "/auth/me" {} doFetch
    match r.outcome with
    | .ok j =>
      if j.isNull then ⟨r.state, .error .typeError, r.networkCall⟩
      else ⟨r.state, .ok (j.getField "user"), r.networkCall⟩
    | .error e =>
      if e.status = some 401 then ⟨r.state, .ok none, r.networkCall⟩
      else ⟨r.state, .error (.api e), r.networkCall⟩
  else ⟨st, .ok none, none⟩

/-- Result of `authApi.logout`. -/
structure LogoutResult where
  state : ClientState
  outcome : Except ApiError Unit
  networkCall : Option FetchRequest

/-- The operation `authApi.logout`: returns at once when no token is held; otherwise an
authenticated POST whose 401 failure is swallowed, any other failure is
rethrown, and the token is cleared in the `finally` block on every path. -/
def authApi.logout (st : ClientState) (doFetch : FetchRequest → FetchResponse) : LogoutResult :=
  if tokenTruthy st.accessToken then
    let r := request st "/auth/logout" { method := "POST" } doFetch
    match r.outcome with
    | .ok _ => ⟨persistToken r.state none, .ok (), r.networkCall⟩
    | .error e =>
      if e.status = some 401 then ⟨persistToken r.state none, .ok (), r.networkCall⟩
      else ⟨persistToken r.state none, .error e, r.networkCall⟩
  else ⟨st, .ok (), none⟩

/-- The join `symbols.join(',')` (the elements are strings by the declared type). -/
def joinSymbols : List Json → String
  | [] => ""
  | [.str s] => s
  | [j] => j.stringify
  | .str s :: xs => s ++ "," ++ joinSymbols xs
  | j :: xs => j.stringify ++ "," ++ joinSymbols xs

/-- The operation `currencyApi.getRates`: `{}` without a network call when `symbols` is
not an array or is empty; otherwise an unauthenticated GET whose `rates`
field is returned, defaulting to `{}` when `null` or absent
(`response.rates ?? {}`) — but reading `response.rates` off a `null`
payload throws a `TypeError`.  The `symbols` argument is modelled as `Json`
so that the source's dynamic `Array.isArray` guard is expressible. -/
def currencyApi.getRates (st : ClientState) (base : String) (symbols : Json)
    (doFetch : FetchRequest → FetchResponse) : CallResult :=
  match symbols with
  | .arr xs =>
    if xs.length = 0 then ⟨st, .ok (.obj []), none⟩
    else
      let r := request st ("/currency/rates?base=" ++ base ++ "&symbols=" ++ joinSymbols xs)
        { authenticated := false } doFetch
      match r.outcome with
      | .ok j =>
        if j.isNull then ⟨r.state, .error .typeError, r.networkCall⟩
        else
          let rates : Json :=
            match j.getField "rates" with
            | some .null => .obj []
            | some v => v
            | none => .obj []
          ⟨r.state, .ok rates, r.networkCall⟩
      | .error e => ⟨r.state, .error (.api e), r.networkCall⟩
  | _ => ⟨st, .ok (.obj []), none⟩

end Api

/-! ### Basic lemmas about the embedded operations -/

namespace Api

theorem isRecord_of_getField {j : Json} {k : String} {v : Json}
    (h : j.getField k = some v) : j.isRecord = true := by
  cases j <;> simp [Json.getField, Json.isRecord] at h ⊢

theorem hasField_of_getField {j : Json} {k : String} {v : Json}
    (h : j.getField k = some v) : j.hasField k = true := by
  cases j with
  | obj fields =>
    simp only [Json.getField, Option.map_eq_some'] at h
    obtain ⟨p, hp, -⟩ := h
    have hpred : (fun q : String × Json => q.1 == k) p = true :=
      @List.find?_some (String × Json) (fun q => q.1 == k) p fields hp
    exact List.any_eq_true.mpr ⟨p, List.mem_of_find?_eq_some hp, hpred⟩
  | _ => simp [Json.getField] at h

theorem getD_getField {j : Json} {k : String} {v : Json}
    (h : j.getField k = some v) : (j.getField k).getD .null = v := by
  rw [h]; rfl

theorem mem_headersSet (hs : List (String × String)) (k v : String) :
    (k, v) ∈ headersSet hs k v := by
  unfold headersSet
  split
  · next h =>
    obtain ⟨p, hp, hk⟩ := List.any_eq_true.mp h
    refine List.mem_map.mpr ⟨p, hp, ?_⟩
    simp [hk]
  · exact List.mem_append_right _ (List.mem_singleton.mpr rfl)

theorem request_of_noToken (st : ClientState) (path : String)
    (opts : RequestOptions) (doFetch : FetchRequest → FetchResponse)
    (hauth : opts.authenticated = true) (htok : tokenTruthy st.accessToken = false) :
    request st path opts doFetch =
      ⟨st, .error ⟨"Not authenticated", some 401, none⟩, none⟩ := by
  unfold request
  rw [if_pos ⟨hauth, by simp [htok]⟩]

theorem request_fetch (st : ClientState) (path : String)
    (opts : RequestOptions) (doFetch : FetchRequest → FetchResponse)
    (hpre : opts.authenticated = false ∨ tokenTruthy st.accessToken = true) :
    request st path opts doFetch =
      ⟨(handleResponse st (doFetch (buildRequest st path opts))).1,
        (handleResponse st (doFetch (buildRequest st path opts))).2,
        some (buildRequest st path opts)⟩ := by
  have hc : ¬(opts.authenticated = true ∧ ¬ tokenTruthy st.accessToken = true) := by
    rcases hpre with h | h <;> simp [h]
  unfold request
  rw [if_neg hc]

theorem request_fetched_outcome (st : ClientState) (path : String)
    (opts : RequestOptions) (resp : FetchResponse)
    (hpre : opts.authenticated = false ∨ tokenTruthy st.accessToken = true)
    (hnotok : ¬(200 ≤ resp.status ∧ resp.status ≤ 299)) :
    (request st path opts (fun _ => resp)).state =
      (if resp.status = 401 ∨ resp.status = 403 then persistToken st none else st) ∧
    (request st path opts (fun _ => resp)).outcome =
      .error ⟨failureMessage resp.status (readPayload resp), some resp.status,
        some (readPayload resp)⟩ ∧
    (request st path opts (fun _ => resp)).networkCall ≠ none := by
  rw [request_fetch st path opts _ hpre]
  unfold handleResponse
  rw [if_neg hnotok]
  exact ⟨rfl, rfl, by simp⟩

theorem request_fetched_ok (st : ClientState) (path : String)
    (opts : RequestOptions) (resp : FetchResponse)
    (hpre : opts.authenticated = false ∨ tokenTruthy st.accessToken = true)
    (hok : 200 ≤ resp.status ∧ resp.status ≤ 299) :
    (request st path opts (fun _ => resp)).state = st ∧
    (request st path opts (fun _ => resp)).outcome =
      .ok (if (readPayload resp).isRecord ∧ (readPayload resp).hasField "data" then
        ((readPayload resp).getField "data").getD .null else readPayload resp) ∧
    (request st path opts (fun _ => resp)).networkCall ≠ none := by
  rw [request_fetch st path opts _ hpre]
  unfold handleResponse
  rw [if_pos hok]
  exact ⟨rfl, rfl, by simp⟩

theorem readPayload_json (s : Nat) (ct : String) (j : Json) (txt : String)
    (h204 : s ≠ 204) (hct : strContains ct "application/json" = true) :
    readPayload ⟨s, some ct, j, txt⟩ = j := by
  have hne : ct ≠ "" := by
    intro h
    rw [h] at hct
    exact absurd hct (by decide)
  unfold readPayload
  rw [if_neg h204]
  simp only
  rw [if_pos ⟨hne, hct⟩]

theorem readPayload_text (s : Nat) (ct : String) (j : Json) (txt : String)
    (h204 : s ≠ 204) (hct : strContains ct "application/json" = false) :
    readPayload ⟨s, some ct, j, txt⟩ = .str txt := by
  unfold readPayload
  rw [if_neg h204]
  simp only
  rw [if_neg (by simp [hct])]

theorem readPayload_noContentType (s : Nat) (j : Json) (txt : String) (h204 : s ≠ 204) :
    readPayload ⟨s, none, j, txt⟩ = .str txt := by
  unfold readPayload
  rw [if_neg h204]

theorem failureMessage_errorMessage {j e : Json} {m : String} (s : Nat)
    (he : j.getField "error" = some e) (hm : e.getField "message" = some (.str m)) :
    failureMessage s j = m := by
  unfold failureMessage
  rw [if_pos (isRecord_of_getField he)]
  simp only [he, isRecord_of_getField hm, if_pos, hm]

theorem failureMessage_message {j : Json} {m : String} (s : Nat)
    (hno : ∀ e m', j.getField "error" = some e → e.getField "message" ≠ some (.str m'))
    (hm : j.getField "message" = some (.str m)) :
    failureMessage s j = m := by
  unfold failureMessage
  rw [if_pos (isRecord_of_getField hm)]
  rcases he : j.getField "error" with - | e
  · simp only [hm]
  · rcases hrec : e.isRecord with - | -
    · simp only [he, hrec, Bool.false_eq_true, if_false, hm]
    · rcases hem : e.getField "message" with - | v
      · simp only [he, hrec, if_true, hem, hm]
      · rcases v with - | b | n | m' | xs | fs
        · simp only [he, hrec, if_true, hem, hm]
        · simp only [he, hrec, if_true, hem, hm]
        · simp only [he, hrec, if_true, hem, hm]
        · exact absurd hem (hno e m' he)
        · simp only [he, hrec, if_true, hem, hm]
        · simp only [he, hrec, if_true, hem, hm]

theorem failureMessage_fallback {j : Json} (s : Nat)
    (hno : ∀ e m', j.getField "error" = some e → e.getField "message" ≠ some (.str m'))
    (hnm : ∀ m, j.getField "message" ≠ some (.str m)) :
    failureMessage s j = "Request failed with status " ++ toString s := by
  unfold failureMessage
  rcases hrecp : j.isRecord with - | -
  · simp only [hrecp, Bool.false_eq_true, if_false]
  · rw [if_pos rfl]
    have hm : (match j.getField "message" with
        | some (.str m) => m
        | _ => "Request failed with status " ++ toString s) =
        "Request failed with status " ++ toString s := by
      rcases hmsg : j.getField "message" with - | v
      · rfl
      · rcases v with - | b | n | m' | xs | fs
        · rfl
        · rfl
        · rfl
        · exact absurd hmsg (hnm m')
        · rfl
        · rfl
    rcases he : j.getField "error" with - | e
    · simp only [hm]
    · rcases hrec : e.isRecord with - | -
      · simp only [he, hrec, Bool.false_eq_true, if_false, hm]
      · rcases hem : e.getField "message" with - | v
        · simp only [he, hrec, if_true, hem, hm]
        · rcases v with - | b | n | m' | xs | fs
          · simp only [he, hrec, if_true, hem, hm]
          · simp only [he, hrec, if_true, hem, hm]
          · simp only [he, hrec, if_true, hem, hm]
          · exact absurd hem (hno e m' he)
          · simp only [he, hrec, if_true, hem, hm]
          · simp only [he, hrec, if_true, hem, hm]

/-! ### Claims -/

/-- C1: a call to `request` with `authenticated` true while no (truthy)
session token is held fails at once with status 401 and message
"Not authenticated", the state is unchanged, and no fetch is performed. -/
theorem request_noToken_fails (st : ClientState) (path : String)
    (opts : RequestOptions) (doFetch : FetchRequest → FetchResponse)
    (hauth : opts.authenticated = true) (htok : tokenTruthy st.accessToken = false) :
    request st path opts doFetch =
      ⟨st, .error ⟨"Not authenticated", some 401, none⟩, none⟩ :=
  request_of_noToken st path opts doFetch hauth htok

/-- Witness for C1: the default options are authenticated, and with no
token held the call fails client-side with 401 and no network call. -/
theorem request_noToken_fails_witness :
    request ⟨none, none⟩ "/admin/commodities" {} (fun _ => ⟨200, none, .null, ""⟩) =
      ⟨⟨none, none⟩, .error ⟨"Not authenticated", some 401, none⟩, none⟩ :=
  request_noToken_fails ⟨none, none⟩ "/admin/commodities" {}
    (fun _ => ⟨200, none, .null, ""⟩) rfl rfl

/-- C2: on a response with status 401 or 403, the token is cleared from
memory and storage before the error (which carries that status) is raised,
and every following authenticated call on the resulting state fails with
the client-side no-token 401 error and no network call. -/
theorem request_authRejected_clears_token (st : ClientState) (path : String)
    (opts : RequestOptions) (resp : FetchResponse)
    (hpre : opts.authenticated = false ∨ tokenTruthy st.accessToken = true)
    (hstatus : resp.status = 401 ∨ resp.status = 403) :
    (request st path opts (fun _ => resp)).state.accessToken = none ∧
    (request st path opts (fun _ => resp)).state.storedToken = none ∧
    (∃ e, (request st path opts (fun _ => resp)).outcome = Except.error e ∧
      e.status = some resp.status) ∧
    ∀ path2 opts2 doFetch2, opts2.authenticated = true →
      request (request st path opts (fun _ => resp)).state path2 opts2 doFetch2 =
        ⟨(request st path opts (fun _ => resp)).state,
          .error ⟨"Not authenticated", some 401, none⟩, none⟩ := by
  have hnotok : ¬(200 ≤ resp.status ∧ resp.status ≤ 299) := by
    rcases hstatus with h | h <;> omega
  obtain ⟨hs, ho, -⟩ := request_fetched_outcome st path opts resp hpre hnotok
  rw [if_pos hstatus] at hs
  refine ⟨by rw [hs]; rfl, by rw [hs]; rfl, ⟨_, ho, rfl⟩, ?_⟩
  intro path2 opts2 doFetch2 hauth2
  exact request_of_noToken _ _ _ _ hauth2 (by rw [hs]; rfl)

/-- Witness for C2 at a concrete 401 response while a token is held. -/
theorem request_authRejected_clears_token_witness :
    (request ⟨some "tok", some "tok"⟩ "/x" {}
      (fun _ => ⟨401, some "application/json", .obj [], ""⟩)).state.accessToken = none ∧
    (request ⟨some "tok", some "tok"⟩ "/x" {}
      (fun _ => ⟨401, some "application/json", .obj [], ""⟩)).state.storedToken = none ∧
    (∃ e, (request ⟨some "tok", some "tok"⟩ "/x" {}
      (fun _ => ⟨401, some "application/json", .obj [], ""⟩)).outcome = Except.error e ∧
      e.status = some 401) ∧
    ∀ path2 opts2 doFetch2, opts2.authenticated = true →
      request (request ⟨some "tok", some "tok"⟩ "/x" {}
          (fun _ => ⟨401, some "application/json", .obj [], ""⟩)).state path2 opts2 doFetch2 =
        ⟨(request ⟨some "tok", some "tok"⟩ "/x" {}
          (fun _ => ⟨401, some "application/json", .obj [], ""⟩)).state,
          .error ⟨"Not authenticated", some 401, none⟩, none⟩ :=
  request_authRejected_clears_token ⟨some "tok", some "tok"⟩ "/x" {}
    ⟨401, some "application/json", .obj [], ""⟩ (Or.inr (by decide)) (Or.inl rfl)

end Api

namespace Api

/-- C3: on a successful (2xx, non-204) JSON response, `request` returns the
value of the payload's `data` key when one is present, and the whole parsed
payload unchanged otherwise. -/
theorem request_success_data_unwrap (st : ClientState) (path : String)
    (opts : RequestOptions) (s : Nat) (ct : String) (j : Json) (txt : String)
    (hpre : opts.authenticated = false ∨ tokenTruthy st.accessToken = true)
    (hok : 200 ≤ s ∧ s ≤ 299) (h204 : s ≠ 204)
    (hct : strContains ct "application/json" = true) :
    (∀ v, j.getField "data" = some v →
      (request st path opts (fun _ => ⟨s, some ct, j, txt⟩)).outcome = .ok v) ∧
    (j.hasField "data" = false →
      (request st path opts (fun _ => ⟨s, some ct, j, txt⟩)).outcome = .ok j) := by
  obtain ⟨-, ho, -⟩ := request_fetched_ok st path opts ⟨s, some ct, j, txt⟩ hpre hok
  rw [readPayload_json s ct j txt h204 hct] at ho
  constructor
  · intro v hv
    rw [ho, if_pos ⟨isRecord_of_getField hv, hasField_of_getField hv⟩, getD_getField hv]
  · intro hnf
    rw [ho, if_neg]
    intro hc
    rw [hnf] at hc
    exact Bool.noConfusion hc.2

/-- Witness for C3: a `{ data: "X" }` payload yields `"X"`, and a payload
without a `data` key is returned whole. -/
theorem request_success_data_unwrap_witness :
    (request ⟨none, none⟩ "/prices/current" { authenticated := false }
      (fun _ => ⟨200, some "application/json", .obj [("data", .str "X")], ""⟩)).outcome =
      .ok (.str "X") :=
  (request_success_data_unwrap ⟨none, none⟩ "/prices/current" { authenticated := false }
    200 "application/json" (.obj [("data", .str "X")]) ""
    (Or.inl rfl) (by omega) (by omega) (by decide)).1 (.str "X") rfl

/-- C4: on a non-2xx JSON response, `request` raises an error carrying the
HTTP status and the raw payload, with the message taken from
`payload.error.message` when that is a string, else from `payload.message`
when that is a string, else the generic text. -/
theorem request_failure_error_shape (st : ClientState) (path : String)
    (opts : RequestOptions) (s : Nat) (ct : String) (j : Json) (txt : String)
    (hpre : opts.authenticated = false ∨ tokenTruthy st.accessToken = true)
    (hnotok : ¬(200 ≤ s ∧ s ≤ 299))
    (hct : strContains ct "application/json" = true) :
    (∀ e m, j.getField "error" = some e → e.getField "message" = some (.str m) →
      (request st path opts (fun _ => ⟨s, some ct, j, txt⟩)).outcome =
        .error ⟨m, some s, some j⟩) ∧
    ((∀ e m', j.getField "error" = some e → e.getField "message" ≠ some (.str m')) →
      (∀ m, j.getField "message" = some (.str m) →
        (request st path opts (fun _ => ⟨s, some ct, j, txt⟩)).outcome =
          .error ⟨m, some s, some j⟩) ∧
      ((∀ m, j.getField "message" ≠ some (.str m)) →
        (request st path opts (fun _ => ⟨s, some ct, j, txt⟩)).outcome =
          .error ⟨"Request failed with status " ++ toString s, some s, some j⟩)) := by
  have h204 : s ≠ 204 := by omega
  obtain ⟨-, ho, -⟩ := request_fetched_outcome st path opts ⟨s, some ct, j, txt⟩ hpre hnotok
  rw [readPayload_json s ct j txt h204 hct] at ho
  refine ⟨?_, fun hno => ⟨?_, ?_⟩⟩
  · intro e m he hm
    rw [ho, failureMessage_errorMessage s he hm]
  · intro m hm
    rw [ho, failureMessage_message s hno hm]
  · intro hnm
    rw [ho, failureMessage_fallback s hno hnm]

/-- Witness for C4: a 400 response shaped
`{ error: { message: "bad input" } }` produces the message "bad input"
together with the status and raw payload. -/
theorem request_failure_error_shape_witness :
    (request ⟨some "t", some "t"⟩ "/admin/commodities" {}
      (fun _ => ⟨400, some "application/json",
        .obj [("error", .obj [("message", .str "bad input")])], ""⟩)).outcome =
      .error ⟨"bad input", some 400,
        some (.obj [("error", .obj [("message", .str "bad input")])])⟩ :=
  (request_failure_error_shape ⟨some "t", some "t"⟩ "/admin/commodities" {}
    400 "application/json" (.obj [("error", .obj [("message", .str "bad input")])]) ""
    (Or.inr (by decide)) (by omega) (by decide)).1
    (.obj [("message", .str "bad input")]) "bad input" rfl rfl

end Api

namespace Api

theorem mem_headersSet_of_ne {hs : List (String × String)} {p : String × String}
    (hp : p ∈ hs) {k : String} (hne : p.1 ≠ k) (v : String) : p ∈ headersSet hs k v := by
  unfold headersSet
  split
  · refine List.mem_map.mpr ⟨p, hp, ?_⟩
    have hb : (p.1 == k) = false := beq_eq_false_iff_ne.mpr hne
    simp [hb]
  · exact List.mem_append_left _ hp

theorem bodyStep_accept (b : Option BodyValue) :
    ("Accept", "application/json") ∈ (bodyStep b).1 := by
  rcases b with - | bv
  · exact List.mem_cons_self _ _
  · rcases bv with fd | j
    · exact List.mem_cons_self _ _
    · rcases j with - | bb | n | s | xs | fs <;> exact List.mem_cons_self _ _

theorem buildHeaders_mem_of_bodyStep (opts : RequestOptions) (st : ClientState)
    {p : String × String} (hp : p ∈ (bodyStep opts.body).1) (hne : p.1 ≠ "Authorization") :
    p ∈ (buildHeaders opts st).1 := by
  unfold buildHeaders
  split
  · cases st.accessToken
    · exact hp
    · exact mem_headersSet_of_ne hp hne _
  · exact hp

theorem buildHeaders_accept (opts : RequestOptions) (st : ClientState) :
    ("Accept", "application/json") ∈ (buildHeaders opts st).1 :=
  buildHeaders_mem_of_bodyStep opts st (bodyStep_accept opts.body) (by decide)

theorem buildHeaders_snd (opts : RequestOptions) (st : ClientState) :
    (buildHeaders opts st).2 = (bodyStep opts.body).2 := by
  unfold buildHeaders
  split
  · cases st.accessToken <;> rfl
  · rfl

theorem buildHeaders_noAuth_cases (opts : RequestOptions) (st : ClientState) :
    (buildHeaders opts st).1 = (bodyStep opts.body).1 ∨
    ∃ tv, (buildHeaders opts st).1 = headersSet (bodyStep opts.body).1 "Authorization" tv := by
  unfold buildHeaders
  split
  · cases st.accessToken
    · exact Or.inl rfl
    · exact Or.inr ⟨_, rfl⟩
  · exact Or.inl rfl

theorem request_attaches_bearer (st : ClientState) (path : String)
    (opts : RequestOptions) (doFetch : FetchRequest → FetchResponse) (t : String)
    (hauth : opts.authenticated = true) (hst : st.accessToken = some t) (ht : t ≠ "") :
    ∃ req, (request st path opts doFetch).networkCall = some req ∧
      ("Authorization", "Bearer " ++ t) ∈ req.headers := by
  have htt : tokenTruthy st.accessToken = true := by
    rw [hst]
    simp [tokenTruthy, ht]
  refine ⟨buildRequest st path opts,
    by rw [request_fetch st path opts doFetch (Or.inr htt)], ?_⟩
  show ("Authorization", "Bearer " ++ t) ∈ (buildHeaders opts st).1
  unfold buildHeaders
  rw [if_pos ⟨hauth, htt⟩, hst]
  exact mem_headersSet _ _ _

end Api

namespace Api

/-- C5 (amended): for every successful login call whose response payload
carries a nonempty `token` string, that token is stored in memory and
persisted under the fixed storage key, and every subsequent authenticated
request performs its fetch with the header `Authorization: Bearer <token>`. -/
theorem login_nonempty_token_persists (st : ClientState) (email password : String)
    (doFetch : FetchRequest → FetchResponse) (j : Json) (t : String)
    (hok : (authApi.login st email password doFetch).outcome = .ok j)
    (htok : j.getField "token" = some (.str t)) (ht : t ≠ "") :
    (authApi.login st email password doFetch).state.accessToken = some t ∧
    (authApi.login st email password doFetch).state.storedToken = some t ∧
    ∀ path2 opts2 doFetch2, opts2.authenticated = true →
      ∃ req, (request (authApi.login st email password doFetch).state
          path2 opts2 doFetch2).networkCall = some req ∧
        ("Authorization", "Bearer " ++ t) ∈ req.headers := by
  have hbe : (t == "") = false := beq_eq_false_iff_ne.mpr ht
  simp only [authApi.login] at hok ⊢
  rcases hr : (request st "/auth/login"
      { method := "POST"
        body := some (.value (.obj [("username", .str email), ("password", .str password)]))
        authenticated := false } doFetch).outcome with e | j'
  · rw [hr] at hok
    simp at hok
  · rw [hr] at hok
    rcases hn : Json.isNull j' with - | -
    · simp only [hn, Bool.false_eq_true, if_false, Except.ok.injEq] at hok
      subst hok
      simp only [hn, Bool.false_eq_true, if_false, htok]
      refine ⟨rfl, by simp [persistToken, hbe], ?_⟩
      intro path2 opts2 doFetch2 hauth2
      exact request_attaches_bearer _ path2 opts2 doFetch2 t hauth2 rfl ht
    · simp [hn] at hok

/-- Witness for C5 (amended) at a concrete successful login returning
token "abc". -/
theorem login_nonempty_token_persists_witness :
    (authApi.login ⟨none, none⟩ "admin@x.y" "pw"
      (fun _ => ⟨200, some "application/json",
        .obj [("token", .str "abc"), ("user", .obj [])], ""⟩)).state.accessToken =
      some "abc" ∧
    (authApi.login ⟨none, none⟩ "admin@x.y" "pw"
      (fun _ => ⟨200, some "application/json",
        .obj [("token", .str "abc"), ("user", .obj [])], ""⟩)).state.storedToken =
      some "abc" ∧
    ∀ path2 opts2 doFetch2, opts2.authenticated = true →
      ∃ req, (request (authApi.login ⟨none, none⟩ "admin@x.y" "pw"
          (fun _ => ⟨200, some "application/json",
            .obj [("token", .str "abc"), ("user", .obj [])], ""⟩)).state
          path2 opts2 doFetch2).networkCall = some req ∧
        ("Authorization", "Bearer " ++ "abc") ∈ req.headers :=
  login_nonempty_token_persists ⟨none, none⟩ "admin@x.y" "pw"
    (fun _ => ⟨200, some "application/json",
      .obj [("token", .str "abc"), ("user", .obj [])], ""⟩)
    (.obj [("token", .str "abc"), ("user", .obj [])]) "abc"
    rfl rfl (by decide)

/-- Counterexample to C5 as stated: a successful login whose server token is
the empty string.  The login succeeds and the server did return a token, yet
nothing is persisted under the storage key (`removeItem` runs instead), and
the following authenticated call performs no fetch at all — it fails with
the client-side no-token error instead of sending an `Authorization`
header. -/
theorem login_emptyToken_counterexample :
    (authApi.login ⟨none, none⟩ "admin@x.y" "pw"
      (fun _ => ⟨200, some "application/json",
        .obj [("token", .str ""), ("user", .obj [])], ""⟩)).outcome =
      .ok (.obj [("token", .str ""), ("user", .obj [])]) ∧
    (authApi.login ⟨none, none⟩ "admin@x.y" "pw"
      (fun _ => ⟨200, some "application/json",
        .obj [("token", .str ""), ("user", .obj [])], ""⟩)).state.storedToken = none ∧
    (request (authApi.login ⟨none, none⟩ "admin@x.y" "pw"
        (fun _ => ⟨200, some "application/json",
          .obj [("token", .str ""), ("user", .obj [])], ""⟩)).state
      "/admin/commodities" {} (fun _ => ⟨200, some "application/json", .obj [], ""⟩)) =
      ⟨⟨some "", none⟩, .error ⟨"Not authenticated", some 401, none⟩, none⟩ :=
  ⟨rfl, rfl, rfl⟩

end Api

namespace Api

/-- C6: the fetch of every dispatched request carries
`Accept: application/json`; a binary form body is passed through unmodified
with no `Content-Type` header; a string body is sent as-is and any other
non-null body value is serialised first, with `Content-Type:
application/json` set in both non-form cases. -/
theorem request_body_headers (st : ClientState) (path : String)
    (opts : RequestOptions) (doFetch : FetchRequest → FetchResponse)
    (hpre : opts.authenticated = false ∨ tokenTruthy st.accessToken = true) :
    ∃ req, (request st path opts doFetch).networkCall = some req ∧
      ("Accept", "application/json") ∈ req.headers ∧
      (∀ fd, opts.body = some (.formData fd) →
        req.body = some (.form fd) ∧ ∀ v, ("Content-Type", v) ∉ req.headers) ∧
      (∀ bs, opts.body = some (.value (.str bs)) →
        req.body = some (.raw bs) ∧ ("Content-Type", "application/json") ∈ req.headers) ∧
      (∀ jb, opts.body = some (.value jb) → (∀ bs, jb ≠ .str bs) → jb ≠ .null →
        req.body = some (.raw jb.stringify) ∧
          ("Content-Type", "application/json") ∈ req.headers) := by
  refine ⟨buildRequest st path opts,
    by rw [request_fetch st path opts doFetch hpre], buildHeaders_accept opts st, ?_, ?_, ?_⟩
  · intro fd hb
    constructor
    · show (buildHeaders opts st).2 = some (.form fd)
      rw [buildHeaders_snd, hb]
      rfl
    · intro v
      show ("Content-Type", v) ∉ (buildHeaders opts st).1
      rcases buildHeaders_noAuth_cases opts st with h | ⟨tv, h⟩
      · rw [h, hb]
        intro hmem
        have hfst : "Content-Type" = "Accept" :=
          congrArg Prod.fst (List.mem_singleton.mp hmem)
        exact absurd hfst (by decide)
      · rw [h, hb]
        have hset : headersSet (bodyStep (some (BodyValue.formData fd))).1
            "Authorization" tv =
            [("Accept", "application/json"), ("Authorization", tv)] := rfl
        rw [hset]
        intro hmem
        rcases List.mem_cons.mp hmem with h1 | hmem2
        · have hfst2 : "Content-Type" = "Accept" := congrArg Prod.fst h1
          exact absurd hfst2 (by decide)
        · have hfst3 : "Content-Type" = "Authorization" :=
            congrArg Prod.fst (List.mem_singleton.mp hmem2)
          exact absurd hfst3 (by decide)
  · intro bs hb
    constructor
    · show (buildHeaders opts st).2 = some (.raw bs)
      rw [buildHeaders_snd, hb]
      rfl
    · refine buildHeaders_mem_of_bodyStep opts st ?_ (by decide)
      rw [hb]
      exact List.mem_cons_of_mem _ (List.mem_cons_self _ _)
  · intro jb hb hnstr hnnull
    constructor
    · show (buildHeaders opts st).2 = some (.raw jb.stringify)
      rw [buildHeaders_snd, hb]
      rcases jb with - | bb | n | bs | xs | fs
      · exact absurd rfl hnnull
      · rfl
      · rfl
      · exact absurd rfl (hnstr bs)
      · rfl
      · rfl
    · refine buildHeaders_mem_of_bodyStep opts st ?_ (by decide)
      rw [hb]
      rcases jb with - | bb | n | bs | xs | fs
      · exact absurd rfl hnnull
      · exact List.mem_cons_of_mem _ (List.mem_cons_self _ _)
      · exact List.mem_cons_of_mem _ (List.mem_cons_self _ _)
      · exact absurd rfl (hnstr bs)
      · exact List.mem_cons_of_mem _ (List.mem_cons_self _ _)
      · exact List.mem_cons_of_mem _ (List.mem_cons_self _ _)

/-- Witness for C6 at a concrete unauthenticated POST with an object body. -/
theorem request_body_headers_witness :
    ∃ req, (request ⟨none, none⟩ "/auth/login"
        { method := "POST", body := some (.value (.obj [])), authenticated := false }
        (fun _ => ⟨200, some "application/json", .obj [], ""⟩)).networkCall = some req ∧
      ("Accept", "application/json") ∈ req.headers ∧
      (∀ fd, (some (.value (.obj [])) : Option BodyValue) = some (.formData fd) →
        req.body = some (.form fd) ∧ ∀ v, ("Content-Type", v) ∉ req.headers) ∧
      (∀ bs, (some (.value (.obj [])) : Option BodyValue) = some (.value (.str bs)) →
        req.body = some (.raw bs) ∧ ("Content-Type", "application/json") ∈ req.headers) ∧
      (∀ jb, (some (.value (.obj [])) : Option BodyValue) = some (.value jb) →
        (∀ bs, jb ≠ .str bs) → jb ≠ .null →
        req.body = some (.raw jb.stringify) ∧
          ("Content-Type", "application/json") ∈ req.headers) :=
  request_body_headers ⟨none, none⟩ "/auth/login"
    { method := "POST", body := some (.value (.obj [])), authenticated := false }
    (fun _ => ⟨200, some "application/json", .obj [], ""⟩) (Or.inl rfl)

/-- C7: a 204 response yields `null` to the caller whatever its
content-type and body; for any other status the payload handed on (as the
error's `details` on failure, or the returned value on success) is the
parsed JSON body exactly when the content-type header contains
`application/json`, and the raw text body otherwise (including when the
header is absent). -/
theorem request_payload_negotiation (st : ClientState) (path : String)
    (opts : RequestOptions)
    (hpre : opts.authenticated = false ∨ tokenTruthy st.accessToken = true) :
    (∀ ct j txt, (request st path opts (fun _ => ⟨204, ct, j, txt⟩)).outcome = .ok .null) ∧
    (∀ s ct j txt, ¬(200 ≤ s ∧ s ≤ 299) → strContains ct "application/json" = true →
      ∃ e, (request st path opts (fun _ => ⟨s, some ct, j, txt⟩)).outcome = .error e ∧
        e.details = some j) ∧
    (∀ s ct j txt, ¬(200 ≤ s ∧ s ≤ 299) → strContains ct "application/json" = false →
      ∃ e, (request st path opts (fun _ => ⟨s, some ct, j, txt⟩)).outcome = .error e ∧
        e.details = some (.str txt)) ∧
    (∀ s j txt, ¬(200 ≤ s ∧ s ≤ 299) →
      ∃ e, (request st path opts (fun _ => ⟨s, none, j, txt⟩)).outcome = .error e ∧
        e.details = some (.str txt)) ∧
    (∀ s ct j txt, 200 ≤ s ∧ s ≤ 299 → s ≠ 204 → strContains ct "application/json" = false →
      (request st path opts (fun _ => ⟨s, some ct, j, txt⟩)).outcome = .ok (.str txt)) := by
  refine ⟨?_, ?_, ?_, ?_, ?_⟩
  · intro ct j txt
    obtain ⟨-, ho, -⟩ := request_fetched_ok st path opts ⟨204, ct, j, txt⟩ hpre
      (show 200 ≤ 204 ∧ 204 ≤ 299 by omega)
    rw [ho]
    rfl
  · intro s ct j txt hnotok hct
    obtain ⟨-, ho, -⟩ := request_fetched_outcome st path opts ⟨s, some ct, j, txt⟩ hpre hnotok
    rw [readPayload_json s ct j txt (by omega) hct] at ho
    exact ⟨_, ho, rfl⟩
  · intro s ct j txt hnotok hct
    obtain ⟨-, ho, -⟩ := request_fetched_outcome st path opts ⟨s, some ct, j, txt⟩ hpre hnotok
    rw [readPayload_text s ct j txt (by omega) hct] at ho
    exact ⟨_, ho, rfl⟩
  · intro s j txt hnotok
    obtain ⟨-, ho, -⟩ := request_fetched_outcome st path opts ⟨s, none, j, txt⟩ hpre hnotok
    rw [readPayload_noContentType s j txt (by omega)] at ho
    exact ⟨_, ho, rfl⟩
  · intro s ct j txt hok h204 hct
    obtain ⟨-, ho, -⟩ := request_fetched_ok st path opts ⟨s, some ct, j, txt⟩ hpre hok
    rw [readPayload_text s ct j txt h204 hct] at ho
    rw [ho]
    rfl

/-- Witness for C7: a 204 response with a text content-type and a non-empty
body still yields `null`. -/
theorem request_payload_negotiation_witness :
    (request ⟨none, none⟩ "/x" { authenticated := false }
      (fun _ => ⟨204, some "text/html", .obj [("data", .str "X")], "ignored"⟩)).outcome =
      .ok .null :=
  (request_payload_negotiation ⟨none, none⟩ "/x" { authenticated := false }
    (Or.inl rfl)).1 (some "text/html") (.obj [("data", .str "X")]) "ignored"

end Api

namespace Api

/-- C8 (amended): `me()` returns null without a network call when no token
is held; with a token held it returns the `user` field of a non-null
success payload, throws the `TypeError` of `result.user` (rethrown by the
catch, which only absorbs 401 `ApiError`s) when the success payload is
`null`, returns null when the server answers 401, and rethrows any other
failure unchanged. -/
theorem me_session_probe :
    (∀ st doFetch, tokenTruthy (ClientState.accessToken st) = false →
      authApi.me st doFetch = ⟨st, .ok none, none⟩) ∧
    (∀ st doFetch jr, tokenTruthy (ClientState.accessToken st) = true →
      (request st "/auth/me" {} doFetch).outcome = .ok jr → Json.isNull jr = false →
      (authApi.me st doFetch).outcome = .ok (jr.getField "user")) ∧
    (∀ st doFetch jr, tokenTruthy (ClientState.accessToken st) = true →
      (request st "/auth/me" {} doFetch).outcome = .ok jr → Json.isNull jr = true →
      (authApi.me st doFetch).outcome = .error .typeError) ∧
    (∀ st doFetch e, tokenTruthy (ClientState.accessToken st) = true →
      (request st "/auth/me" {} doFetch).outcome = .error e → e.status = some 401 →
      (authApi.me st doFetch).outcome = .ok none) ∧
    (∀ st doFetch e, tokenTruthy (ClientState.accessToken st) = true →
      (request st "/auth/me" {} doFetch).outcome = .error e → e.status ≠ some 401 →
      (authApi.me st doFetch).outcome = .error (.api e)) := by
  refine ⟨?_, ?_, ?_, ?_, ?_⟩
  · intro st doFetch htok
    simp only [authApi.me, htok, Bool.false_eq_true, if_false]
  · intro st doFetch jr htt hr hn
    simp only [authApi.me, htt, eq_self_iff_true, if_true, hr, hn, Bool.false_eq_true,
      if_false]
  · intro st doFetch jr htt hr hn
    simp only [authApi.me, htt, eq_self_iff_true, if_true, hr, hn]
  · intro st doFetch e htt hr h401
    simp only [authApi.me, htt, eq_self_iff_true, if_true, hr, h401]
  · intro st doFetch e htt hr h401
    simp only [authApi.me, htt, eq_self_iff_true, if_true, hr, h401, if_false]

/-- Counterexample to C8 as stated: with a token held and the server
answering a successful 204, the probe's payload resolves to `null`, and
`me()` neither returns an identity nor null — reading `result.user` throws
a `TypeError`, which the catch rethrows since it is not a 401 `ApiError`. -/
theorem me_nullPayload_counterexample :
    (request ⟨some "tok", some "tok"⟩ "/auth/me" {}
      (fun _ => ⟨204, some "application/json", .obj [], ""⟩)).outcome = .ok .null ∧
    (authApi.me ⟨some "tok", some "tok"⟩
      (fun _ => ⟨204, some "application/json", .obj [], ""⟩)).outcome =
      .error .typeError :=
  ⟨rfl, rfl⟩

/-- Witness for C8: `me()` with no stored token returns null and makes no
fetch. -/
theorem me_session_probe_witness :
    authApi.me ⟨none, none⟩ (fun _ => ⟨200, some "application/json", .obj [], ""⟩) =
      ⟨⟨none, none⟩, .ok none, none⟩ :=
  me_session_probe.1 ⟨none, none⟩
    (fun _ => ⟨200, some "application/json", .obj [], ""⟩) rfl

/-- C9: `logout()` while a token is held: a 401 failure from the server is
swallowed, any other failure is rethrown, a success returns normally — and
in every one of these outcomes the token is cleared from memory and from
storage. -/
theorem logout_best_effort :
    (∀ st doFetch jr, tokenTruthy (ClientState.accessToken st) = true →
      (request st "/auth/logout" { method := "POST" } doFetch).outcome = .ok jr →
      (authApi.logout st doFetch).outcome = .ok () ∧
      (authApi.logout st doFetch).state.accessToken = none ∧
      (authApi.logout st doFetch).state.storedToken = none) ∧
    (∀ st doFetch e, tokenTruthy (ClientState.accessToken st) = true →
      (request st "/auth/logout" { method := "POST" } doFetch).outcome = .error e →
      e.status = some 401 →
      (authApi.logout st doFetch).outcome = .ok () ∧
      (authApi.logout st doFetch).state.accessToken = none ∧
      (authApi.logout st doFetch).state.storedToken = none) ∧
    (∀ st doFetch e, tokenTruthy (ClientState.accessToken st) = true →
      (request st "/auth/logout" { method := "POST" } doFetch).outcome = .error e →
      e.status ≠ some 401 →
      (authApi.logout st doFetch).outcome = .error e ∧
      (authApi.logout st doFetch).state.accessToken = none ∧
      (authApi.logout st doFetch).state.storedToken = none) := by
  refine ⟨?_, ?_, ?_⟩
  · intro st doFetch jr htt hr
    simp only [authApi.logout, htt, eq_self_iff_true, if_true, hr]
    exact ⟨by trivial, by trivial, by trivial⟩
  · intro st doFetch e htt hr h401
    simp only [authApi.logout, htt, eq_self_iff_true, if_true, hr, h401]
    exact ⟨by trivial, by trivial, by trivial⟩
  · intro st doFetch e htt hr h401
    simp only [authApi.logout, htt, eq_self_iff_true, if_true, hr, h401, if_false]
    exact ⟨by trivial, by trivial, by trivial⟩

/-- Witness for C9: a concrete logout while holding a token, with the
server answering 401 — no error surfaces and the token is cleared. -/
theorem logout_best_effort_witness :
    (authApi.logout ⟨some "tok", some "tok"⟩
      (fun _ => ⟨401, some "application/json", .obj [], ""⟩)).outcome = .ok () ∧
    (authApi.logout ⟨some "tok", some "tok"⟩
      (fun _ => ⟨401, some "application/json", .obj [], ""⟩)).state.accessToken = none ∧
    (authApi.logout ⟨some "tok", some "tok"⟩
      (fun _ => ⟨401, some "application/json", .obj [], ""⟩)).state.storedToken = none :=
  logout_best_effort.2.1 ⟨some "tok", some "tok"⟩
    (fun _ => ⟨401, some "application/json", .obj [], ""⟩)
    ⟨"Request failed with status 401", some 401, some (.obj [])⟩
    (by decide) rfl rfl

/-- C10 (amended): `getRates` returns the empty record without any network
call when `symbols` is not an array or is an empty array; a successful
non-null response payload lacking a `rates` field yields the empty record,
while a null success payload makes the read `response.rates` throw a
`TypeError`. -/
theorem getRates_guards :
    (∀ st base j doFetch, (∀ xs, j ≠ .arr xs) →
      currencyApi.getRates st base j doFetch = ⟨st, .ok (.obj []), none⟩) ∧
    (∀ st base doFetch,
      currencyApi.getRates st base (.arr []) doFetch = ⟨st, .ok (.obj []), none⟩) ∧
    (∀ st base xs doFetch jr, xs ≠ [] →
      (request st ("/currency/rates?base=" ++ base ++ "&symbols=" ++ joinSymbols xs)
        { authenticated := false } doFetch).outcome = .ok jr →
      Json.isNull jr = false → jr.getField "rates" = none →
      (currencyApi.getRates st base (.arr xs) doFetch).outcome = .ok (.obj [])) ∧
    (∀ st base xs doFetch, xs ≠ [] →
      (request st ("/currency/rates?base=" ++ base ++ "&symbols=" ++ joinSymbols xs)
        { authenticated := false } doFetch).outcome = .ok .null →
      (currencyApi.getRates st base (.arr xs) doFetch).outcome = .error .typeError) := by
  refine ⟨?_, ?_, ?_, ?_⟩
  · intro st base j doFetch h
    rcases j with - | b | n | s | xs | fs
    · rfl
    · rfl
    · rfl
    · rfl
    · exact absurd rfl (h xs)
    · rfl
  · intro st base doFetch
    rfl
  · intro st base xs doFetch jr hxs hr hn hrates
    rcases xs with - | ⟨x, xs'⟩
    · exact absurd rfl hxs
    · simp only [currencyApi.getRates, List.length_cons, Nat.succ_ne_zero, if_false, hr,
        hn, Bool.false_eq_true, hrates]
  · intro st base xs doFetch hxs hr
    rcases xs with - | ⟨x, xs'⟩
    · exact absurd rfl hxs
    · simp only [currencyApi.getRates, List.length_cons, Nat.succ_ne_zero, if_false, hr,
        Json.isNull, eq_self_iff_true, if_true]

/-- Witness for C10: a nonempty symbol list with a successful non-null
response that lacks a `rates` field yields the empty record. -/
theorem getRates_guards_witness :
    (currencyApi.getRates ⟨none, none⟩ "USD" (.arr [.str "ZAR"])
      (fun _ => ⟨200, some "application/json",
        .obj [("base_currency", .str "USD")], ""⟩)).outcome = .ok (.obj []) :=
  getRates_guards.2.2.1 ⟨none, none⟩ "USD" [.str "ZAR"]
    (fun _ => ⟨200, some "application/json", .obj [("base_currency", .str "USD")], ""⟩)
    (.obj [("base_currency", .str "USD")]) (List.cons_ne_nil _ _) rfl rfl rfl

/-- Counterexample to C10 as stated: a successful 204 answer to a rates
request resolves the payload to `null`, which certainly lacks a `rates`
field, yet `getRates` does not return the empty record — reading
`response.rates` throws a `TypeError`. -/
theorem getRates_nullPayload_counterexample :
    (request ⟨none, none⟩ "/currency/rates?base=USD&symbols=ZAR"
      { authenticated := false }
      (fun _ => ⟨204, some "application/json", .obj [], ""⟩)).outcome = .ok .null ∧
    (currencyApi.getRates ⟨none, none⟩ "USD" (.arr [.str "ZAR"])
      (fun _ => ⟨204, some "application/json", .obj [], ""⟩)).outcome =
      .error .typeError :=
  ⟨rfl, rfl⟩

end Api
